import Mathlib

/-!
Shallow embedding of `src/app.js` (a minimal Express service with a
request-instrumentation middleware) and proofs about its spec claims.

The middleware (src/app.js lines 79–98) extracts a trace context from the
request headers, starts a span, starts a histogram timer, registers a
callback on the response's `finish` event, and calls `next()`.  The
`finish` callback (lines 87–96) increments the request counter, observes
the request duration, tags the span with the status code and finishes the
span — in that program order.

We model the observable behaviour of one request as a list of `Action`s
(telemetry side effects), the response lifecycle as a list of `ResEvent`s
(`finish` with the final status code, or `close` for a client abort before
completion), and `res.on('finish', cb)` by running the callback body once
per `finish` event delivered — exactly what the source does: it uses `on`
(not `once`) with no completed-flag guard, and registers no `close`
listener.
-/

namespace App

/-- A propagated trace context (jaeger wire context), kept abstract as its
raw header value. -/
structure SpanContext where
  raw : String
deriving DecidableEq, Repr

/-- The request-scoped data the middleware reads: method, path and the
inbound header mapping (src/app.js lines 79–97 reads `req.method`,
`req.path`, `req.headers`). -/
structure Request where
  method : String
  path : String
  headers : List (String × String)
deriving DecidableEq, Repr

/-- The jaeger single-header propagation key. -/
def traceHeaderKey : String := "uber-trace-id"

/-- Modelled from the spec: `tracer.extract(FORMAT_HTTP_HEADERS, req.headers)`
(src/app.js line 80).  The jaeger tracer is an external collaborator whose
code is not under src/; per the spec (§4.1, §7) extraction yields a parent
context exactly when the propagation header carries a valid (here:
non-empty) value, and "no parent" otherwise, and never fails fatally. -/
def tracerExtract (headers : List (String × String)) : Option SpanContext :=
  match headers.lookup traceHeaderKey with
  | some v => if v = "" then none else some ⟨v⟩
  | none => none

/-- `opentracing.Tags.SPAN_KIND` (src/app.js line 83). -/
def SPAN_KIND : String := "span.kind"

/-- `opentracing.Tags.SPAN_KIND_RPC_SERVER` (src/app.js line 83). -/
def SPAN_KIND_RPC_SERVER : String := "server"

/-- `opentracing.Tags.HTTP_STATUS_CODE` (src/app.js line 94). -/
def HTTP_STATUS_CODE : String := "http.status_code"

/-- The telemetry side effects the program can perform, in the order they
are performed. -/
inductive Action where
  | spanStart (name : String) (parent : Option SpanContext)
      (tags : List (String × String))
  | counterInc (method route : String) (status_code : Nat)
  | histObserve (method route : String) (code : Nat) (value : Nat)
  | spanSetTag (key : String) (value : Nat)
  | spanFinish
  | logInfo (msg : String)
  | logError (msg : String)
deriving DecidableEq, Repr

/-- src/app.js lines 88–95: the body of the `res.on('finish', ...)`
callback, as the list of actions it performs, in program order:
`httpRequestCounter.inc`, `end(...)` (histogram observation),
`span.setTag(HTTP_STATUS_CODE, ...)`, `span.finish()`. -/
def finishListener (req : Request) (statusCode elapsed : Nat) : List Action :=
  [ .counterInc req.method req.path statusCode,
    .histObserve req.method req.path statusCode elapsed,
    .spanSetTag HTTP_STATUS_CODE statusCode,
    .spanFinish ]

/-- Lifecycle events a Node response object can emit: `finish` (response
fully flushed, status code final) or `close` (connection closed, in
particular a client abort before completion). -/
inductive ResEvent where
  | finish (statusCode : Nat)
  | close
deriving DecidableEq, Repr

/-- Semantics of `res.on('finish', cb)` (src/app.js line 87): the callback
body runs once per `finish` event delivered on the response; no listener is
registered for `close`, so a client abort runs nothing. -/
def runFinishListener (req : Request) (elapsed : Nat)
    (events : List ResEvent) : List Action :=
  events.flatMap fun e =>
    match e with
    | .finish sc => finishListener req sc elapsed
    | .close => []

/-- The tag mapping passed to `tracer.startSpan` (src/app.js line 83). -/
def serverTags : List (String × String) := [(SPAN_KIND, SPAN_KIND_RPC_SERVER)]

/-- src/app.js lines 80–84: the middleware's work before `next()`: extract
the parent context and start a span named after the request path, child of
the extracted context, tagged as a server-kind span. -/
def middlewareStart (req : Request) : List Action :=
  [ .spanStart req.path (tracerExtract req.headers) serverTags ]

/-- The full telemetry trace the middleware produces for one request whose
response emits `events`: the span start, then whatever the `finish`
listener produces for the delivered events. -/
def middlewareTrace (req : Request) (elapsed : Nat)
    (events : List ResEvent) : List Action :=
  middlewareStart req ++ runFinishListener req elapsed events

/-! Counting helpers over a trace. -/

def isCounterInc : Action → Bool
  | .counterInc .. => true
  | _ => false

def isHistObserve : Action → Bool
  | .histObserve .. => true
  | _ => false

def isSpanSetTag : Action → Bool
  | .spanSetTag .. => true
  | _ => false

def isSpanFinish : Action → Bool
  | .spanFinish => true
  | _ => false

def isSpanStart : Action → Bool
  | .spanStart .. => true
  | _ => false

def isLogError : Action → Bool
  | .logError _ => true
  | _ => false

def countFinishEvents (events : List ResEvent) : Nat :=
  events.countP fun e =>
    match e with
    | .finish _ => true
    | _ => false

/-! ## The metrics registry

`prom-client`'s `Registry` with the two application metrics registered in
src/app.js lines 19–37: the counter `http_requests_total` with label names
`method, route, status_code`, and the histogram `http_request_duration_ms`
with label names `method, route, code`.  A labelled metric stores one
entry per label combination that has actually been recorded. -/

/-- The counter's label set (src/app.js line 22). -/
structure CounterLabels where
  method : String
  route : String
  status_code : Nat
deriving DecidableEq, Repr

/-- The histogram's label set (src/app.js line 32). -/
structure HistLabels where
  method : String
  route : String
  code : Nat
deriving DecidableEq, Repr

/-- `counter.inc(labels)`: add 1 to the series for `l`, creating it at 1 if
it does not exist yet (prom-client stores no series until first `inc`). -/
def bump (l : CounterLabels) : List (CounterLabels × Nat) → List (CounterLabels × Nat)
  | [] => [(l, 1)]
  | (k, v) :: rest =>
    if k = l then (k, v + 1) :: rest else (k, v) :: bump l rest

/-- `histogram.observe(labels, x)`: append an observation to the series for
`l`, creating it if it does not exist yet. -/
def histAdd (l : HistLabels) (x : Nat) :
    List (HistLabels × List Nat) → List (HistLabels × List Nat)
  | [] => [(l, [x])]
  | (k, vs) :: rest =>
    if k = l then (k, vs ++ [x]) :: rest else (k, vs) :: histAdd l x rest

/-- The registry's mutable state: the recorded series of the two
application metrics.  (The default process metrics registered by
`collectDefaultMetrics` are named `process_...` / `nodejs_...` and play no
role in any claim, so they are not modelled.) -/
structure Registry where
  counter : List (CounterLabels × Nat)
  hist : List (HistLabels × List Nat)
deriving DecidableEq, Repr

def Registry.empty : Registry := ⟨[], []⟩

/-- Apply one telemetry action to the registry (span and log actions do not
touch the registry). -/
def applyAction (reg : Registry) : Action → Registry
  | .counterInc m r sc => { reg with counter := bump ⟨m, r, sc⟩ reg.counter }
  | .histObserve m r c v => { reg with hist := histAdd ⟨m, r, c⟩ v reg.hist }
  | _ => reg

def applyTrace (reg : Registry) (tr : List Action) : Registry :=
  tr.foldl applyAction reg

/-- Current value of a counter series (0 if never incremented). -/
def counterValue (l : CounterLabels) : List (CounterLabels × Nat) → Nat
  | [] => 0
  | (k, v) :: rest => if k = l then v else counterValue l rest

/-! ## Exposition rendering (for `GET /metrics`)

Modelled from the spec: `register.metrics()` / `register.contentType`
(prom-client, external collaborator not under src/).  Per the spec (§6, §8)
the registry renders its accumulated samples in the standard exposition
text format — `# HELP` / `# TYPE` header lines per metric, then one sample
line per recorded series, each sample line beginning with the metric name —
with the default label `app="nodejs-demo-app"` (src/app.js lines 11–13) on
every series.  A labelled metric with no recorded series renders header
lines only.  Histogram `_bucket` lines have floating-point boundaries and
play no role in any claim; the `_sum` / `_count` lines are rendered. -/

def registryContentType : String := "text/plain; version=0.0.4; charset=utf-8"

def renderCounterLabels (l : CounterLabels) : String :=
  "\x7bapp=\"nodejs-demo-app\",method=\"" ++ l.method ++ "\",route=\"" ++
    l.route ++ "\",status_code=\"" ++ toString l.status_code ++ "\"\x7d"

def renderHistLabels (l : HistLabels) : String :=
  "\x7bapp=\"nodejs-demo-app\",method=\"" ++ l.method ++ "\",route=\"" ++
    l.route ++ "\",code=\"" ++ toString l.code ++ "\"\x7d"

def renderCounterLines (st : List (CounterLabels × Nat)) : List String :=
  "# HELP http_requests_total Total number of HTTP requests" ::
  "# TYPE http_requests_total counter" ::
  st.map fun kv =>
    "http_requests_total" ++ renderCounterLabels kv.1 ++ " " ++ toString kv.2

def sumList (vs : List Nat) : Nat := vs.foldl (· + ·) 0

def renderHistLines (st : List (HistLabels × List Nat)) : List String :=
  "# HELP http_request_duration_ms Duration of HTTP requests in ms" ::
  "# TYPE http_request_duration_ms histogram" ::
  st.flatMap fun kv =>
    [ "http_request_duration_ms_sum" ++ renderHistLabels kv.1 ++ " " ++
        toString (sumList kv.2),
      "http_request_duration_ms_count" ++ renderHistLabels kv.1 ++ " " ++
        toString kv.2.length ]

def renderLines (reg : Registry) : List String :=
  renderCounterLines reg.counter ++ renderHistLines reg.hist

/-- Join the exposition lines with newlines: the body of
`register.metrics()`. -/
def joinLines : List String → String
  | [] => ""
  | [l] => l
  | l :: ls => l ++ "\n" ++ joinLines ls

def renderRegistry (reg : Registry) : String := joinLines (renderLines reg)

/-! ## The HTTP surface -/

/-- What the client observes from one request. -/
structure Response where
  status : Nat
  contentType : Option String
  body : String
deriving DecidableEq, Repr

def helloBody : String := "Hello World!"

def helloLogMsg : String := "Hello World endpoint was called"

/-- src/app.js lines 100–108: the two route handlers, plus Express's final
handler which answers 404 when no route matches.  `res.send` on `GET /`
leaves the default status 200; the `/metrics` handler sets the
Content-Type to `register.contentType` and sends the rendered registry.
The render reads the registry state as it is when the handler runs (the
middleware's `finish` listener fires only after the response is written,
so a request's own sample is not in its own `/metrics` body). -/
def routeResponse (reg : Registry) (req : Request) : Response × List Action :=
  if req.method = "GET" ∧ req.path = "/" then
    (⟨200, none, helloBody⟩, [Action.logInfo helloLogMsg])
  else if req.method = "GET" ∧ req.path = "/metrics" then
    (⟨200, some registryContentType, renderRegistry reg⟩, [])
  else
    (⟨404, none, "Cannot " ++ req.method ++ " " ++ req.path⟩, [])

/-- One normally-completed request through the whole app: the middleware
(registered with `app.use`, so it runs for every request before routing)
starts the span, the matched handler (or the 404 final handler) runs, the
response finishes with the handler's status, and the `finish` listener
fires once.  Returns the response and the full telemetry trace. -/
def appTrace (reg : Registry) (req : Request) (elapsed : Nat) :
    Response × List Action :=
  let rr := routeResponse reg req
  (rr.1,
   middlewareStart req ++ rr.2 ++
     runFinishListener req elapsed [ResEvent.finish rr.1.status])

/-- One normally-completed request: response, telemetry trace, and the
registry state after the trace's metric actions are applied. -/
def handleRequest (reg : Registry) (req : Request) (elapsed : Nat) :
    Response × List Action × Registry :=
  let r := appTrace reg req elapsed
  (r.1, r.2, applyTrace reg r.2)

/-! ## Fallible collaborators (for the error-handling claims)

The same middleware code, with the tracer and registry modelled as
collaborators that may throw.  The source (src/app.js lines 79–98) contains
no `try`/`catch`: each call is made directly, so a thrown exception aborts
the rest of the code in source order and escapes the middleware.  Each
function below returns the actions performed before any throw, together
with the escaped exception if one was thrown. -/

structure Sinks where
  extractE : List (String × String) → Except String (Option SpanContext)
  startSpanE : String → Option SpanContext → List (String × String) →
    Except String Unit
  counterIncE : CounterLabels → Except String Unit
  observeE : HistLabels → Nat → Except String Unit
  setTagE : String → Nat → Except String Unit
  spanFinishE : Except String Unit

/-- src/app.js lines 80–84 with fallible collaborators: `tracer.extract`
then `tracer.startSpan`, no catch around either. -/
def middlewareStartE (s : Sinks) (req : Request) :
    List Action × Option String :=
  match s.extractE req.headers with
  | .error e => ([], some e)
  | .ok pctx =>
    match s.startSpanE req.path pctx serverTags with
    | .error e => ([], some e)
    | .ok _ => ([Action.spanStart req.path pctx serverTags], none)

/-- src/app.js lines 88–95 with fallible collaborators: the four completion
calls in source order, no catch around any of them; a throw skips the
remaining calls and escapes. -/
def finishListenerE (s : Sinks) (req : Request) (statusCode elapsed : Nat) :
    List Action × Option String :=
  match s.counterIncE ⟨req.method, req.path, statusCode⟩ with
  | .error e => ([], some e)
  | .ok _ =>
    match s.observeE ⟨req.method, req.path, statusCode⟩ elapsed with
    | .error e => ([Action.counterInc req.method req.path statusCode], some e)
    | .ok _ =>
      match s.setTagE HTTP_STATUS_CODE statusCode with
      | .error e =>
        ([Action.counterInc req.method req.path statusCode,
          Action.histObserve req.method req.path statusCode elapsed], some e)
      | .ok _ =>
        match s.spanFinishE with
        | .error e =>
          ([Action.counterInc req.method req.path statusCode,
            Action.histObserve req.method req.path statusCode elapsed,
            Action.spanSetTag HTTP_STATUS_CODE statusCode], some e)
        | .ok _ => (finishListener req statusCode elapsed, none)

/-- Collaborators that never throw; with these the fallible embedding
coincides with the pure one. -/
def okSinks : Sinks where
  extractE := fun h => .ok (tracerExtract h)
  startSpanE := fun _ _ _ => .ok ()
  counterIncE := fun _ => .ok ()
  observeE := fun _ _ => .ok ()
  setTagE := fun _ _ => .ok ()
  spanFinishE := .ok ()

/-- A tracer that is unreachable: `tracer.extract` throws. -/
def downTracerSinks : Sinks :=
  { okSinks with extractE := fun _ => .error "tracer unreachable" }

/-- A registry that is unreachable: `counter.inc` throws. -/
def downRegistrySinks : Sinks :=
  { okSinks with counterIncE := fun _ => .error "registry unreachable" }

/-! ## Views of a trace and of a body string -/

/-- The first `spanStart` action of a trace, as (name, parent, tags): the
span the middleware opened for the request. -/
def firstSpanStart : List Action → Option (String × Option SpanContext × List (String × String))
  | [] => none
  | .spanStart n p t :: _ => some (n, p, t)
  | _ :: rest => firstSpanStart rest

/-- The value of the last `spanSetTag` with key `HTTP_STATUS_CODE` in a
trace: the status-code tag the span carries when it is finished. -/
def lastStatusTag (tr : List Action) : Option Nat :=
  tr.foldl
    (fun acc a =>
      match a with
      | .spanSetTag k v => if k = HTTP_STATUS_CODE then some v else acc
      | _ => acc)
    none

/-- `listBeginsWith p s`: `p` is a prefix of the character list `s`. -/
def listBeginsWith : List Char → List Char → Bool
  | [], _ => true
  | _ :: _, [] => false
  | a :: as, b :: bs => a = b && listBeginsWith as bs

/-- `beginsWith pre s`: the string `s` begins with `pre`. -/
def beginsWith (pre s : String) : Bool := listBeginsWith pre.data s.data

/-- Scan a character list for a line-start position at which `p` is a
prefix of the remaining text; `atStart` says whether the current position
starts a line.  For a newline-free `p` this is exactly "some line begins
with `p`". -/
def scanLines (p : List Char) : List Char → Bool → Bool
  | [], atStart => atStart && p.isEmpty
  | c :: cs, atStart =>
    (atStart && listBeginsWith p (c :: cs)) || scanLines p cs (decide (c = '\n'))

/-- `hasLineBeginningWith pre s`: some line of `s` begins with `pre`. -/
def hasLineBeginningWith (pre s : String) : Bool :=
  scanLines pre.data s.data true

/-! ## Concrete fixtures -/

/-- A plain `GET /` request with no headers. -/
def req0 : Request := ⟨"GET", "/", []⟩

/-- The registry state after one completed `GET /` request against a fresh
registry. -/
def regAfterHello : Registry := (handleRequest Registry.empty req0 3).2.2

/-! ## Helper lemmas -/

/-- Counter increments in the listener's output: one per `finish` event
delivered. -/
theorem runFL_counterInc (req : Request) (elapsed : Nat)
    (events : List ResEvent) :
    (runFinishListener req elapsed events).countP isCounterInc
        = countFinishEvents events := by
  induction events with
  | nil => simp [runFinishListener, countFinishEvents]
  | cons e rest ih =>
    cases e <;>
      simp [runFinishListener, countFinishEvents, finishListener,
        List.countP_cons, isCounterInc] at ih ⊢ <;> omega

/-- Histogram observations in the listener's output: one per `finish`
event delivered. -/
theorem runFL_histObserve (req : Request) (elapsed : Nat)
    (events : List ResEvent) :
    (runFinishListener req elapsed events).countP isHistObserve
        = countFinishEvents events := by
  induction events with
  | nil => simp [runFinishListener, countFinishEvents]
  | cons e rest ih =>
    cases e <;>
      simp [runFinishListener, countFinishEvents, finishListener,
        List.countP_cons, isHistObserve] at ih ⊢ <;> omega

/-- Span tags in the listener's output: one per `finish` event delivered. -/
theorem runFL_spanSetTag (req : Request) (elapsed : Nat)
    (events : List ResEvent) :
    (runFinishListener req elapsed events).countP isSpanSetTag
        = countFinishEvents events := by
  induction events with
  | nil => simp [runFinishListener, countFinishEvents]
  | cons e rest ih =>
    cases e <;>
      simp [runFinishListener, countFinishEvents, finishListener,
        List.countP_cons, isSpanSetTag] at ih ⊢ <;> omega

/-- Span finishes in the listener's output: one per `finish` event
delivered. -/
theorem runFL_spanFinish (req : Request) (elapsed : Nat)
    (events : List ResEvent) :
    (runFinishListener req elapsed events).countP isSpanFinish
        = countFinishEvents events := by
  induction events with
  | nil => simp [runFinishListener, countFinishEvents]
  | cons e rest ih =>
    cases e <;>
      simp [runFinishListener, countFinishEvents, finishListener,
        List.countP_cons, isSpanFinish] at ih ⊢ <;> omega

/-- The listener never starts a span. -/
theorem runFL_spanStart (req : Request) (elapsed : Nat)
    (events : List ResEvent) :
    (runFinishListener req elapsed events).countP isSpanStart = 0 := by
  rw [List.countP_eq_zero]
  intro a ha
  rw [runFinishListener, List.mem_flatMap] at ha
  obtain ⟨e, _, hae⟩ := ha
  cases e with
  | finish sc =>
    simp [finishListener] at hae
    rcases hae with rfl | rfl | rfl | rfl <;> simp [isSpanStart]
  | close => simp at hae

/-- `middlewareStart` contains no completion action. -/
theorem middlewareStart_counts (req : Request) :
    (middlewareStart req).countP isCounterInc = 0 ∧
    (middlewareStart req).countP isHistObserve = 0 ∧
    (middlewareStart req).countP isSpanSetTag = 0 ∧
    (middlewareStart req).countP isSpanFinish = 0 ∧
    (middlewareStart req).countP isSpanStart = 1 := by
  simp [middlewareStart, List.countP_cons, isCounterInc, isHistObserve,
    isSpanSetTag, isSpanFinish, isSpanStart]

/-- Incrementing a counter series raises its value by exactly 1. -/
theorem counterValue_bump (l : CounterLabels)
    (m : List (CounterLabels × Nat)) :
    counterValue l (bump l m) = counterValue l m + 1 := by
  induction m with
  | nil => simp [bump, counterValue]
  | cons kv rest ih =>
    obtain ⟨k, v⟩ := kv
    by_cases h : k = l
    · simp [bump, counterValue, h]
    · simp [bump, counterValue, h, ih]

theorem string_data_append (a b : String) : (a ++ b).data = a.data ++ b.data := rfl

theorem listBeginsWith_append (p : List Char) :
    ∀ s t, listBeginsWith p s = true → listBeginsWith p (s ++ t) = true := by
  induction p with
  | nil => intro s t _; rfl
  | cons a as ih =>
    intro s t h
    cases s with
    | nil => simp [listBeginsWith] at h
    | cons b bs =>
      simp [listBeginsWith] at h ⊢
      exact ⟨h.1, ih bs t h.2⟩

theorem listBeginsWith_self_append (p : List Char) :
    ∀ t, listBeginsWith p (p ++ t) = true := by
  induction p with
  | nil => intro t; rfl
  | cons a as ih => intro t; simp [listBeginsWith, ih]

/-- If the whole remaining text begins with `p`, the scan succeeds. -/
theorem scanLines_here (p t : List Char) (h : listBeginsWith p t = true) :
    scanLines p t true = true := by
  cases t with
  | nil =>
    cases p with
    | nil => rfl
    | cons a as => simp [listBeginsWith] at h
  | cons c cs => simp [scanLines, h]

/-- The scan can skip past a newline into a matching suffix. -/
theorem scanLines_skip (p ys : List Char) (h : scanLines p ys true = true) :
    ∀ xs b, scanLines p (xs ++ '\n' :: ys) b = true := by
  intro xs
  induction xs with
  | nil => intro b; simp [scanLines, h]
  | cons c cs ih => intro b; simp [scanLines, ih]

/-- If some element of `ls` begins with `p`, then the newline-join of `ls`
has a line beginning with `p`. -/
theorem scanLines_joinLines (p : List Char) :
    ∀ ls : List String, ∀ l ∈ ls, listBeginsWith p l.data = true →
      scanLines p (joinLines ls).data true = true := by
  intro ls
  induction ls with
  | nil => intro l hl; exact absurd hl (List.not_mem_nil l)
  | cons x xs ih =>
    intro l hl hbegin
    cases xs with
    | nil =>
      have hx : l = x := by simpa using hl
      subst hx
      exact scanLines_here p _ hbegin
    | cons y ys =>
      have hdata : (joinLines (x :: y :: ys)).data
          = x.data ++ '\n' :: (joinLines (y :: ys)).data := by
        show (x ++ "\n" ++ joinLines (y :: ys)).data = _
        simp [string_data_append]
      rcases List.mem_cons.mp hl with rfl | hmem
      · rw [hdata]
        exact scanLines_here p _
          (listBeginsWith_append p l.data ('\n' :: (joinLines (y :: ys)).data) hbegin)
      · rw [hdata]
        exact scanLines_skip p _ (ih l hmem hbegin) x.data true

/-- The handler actions of any request are either nothing or a single
informational log line (the `GET /` handler's). -/
theorem routeResponse_actions (reg : Registry) (req : Request) :
    (routeResponse reg req).2 = [] ∨
    (routeResponse reg req).2 = [Action.logInfo helloLogMsg] := by
  unfold routeResponse
  by_cases h1 : req.method = "GET" ∧ req.path = "/"
  · simp [h1]
  · by_cases h2 : req.method = "GET" ∧ req.path = "/metrics"
    · simp [h1, h2]
    · simp [h1, h2]

/-! ## The claims -/

/-- C1: for every request whose response completes normally (one `finish`
event carrying the final status code), the middleware records exactly one
counter sample and exactly one histogram sample, the counter with labels
(method = request method, route = request path, status_code = final status
code) and the histogram with labels (method, route = request path,
code = final status code), regardless of the final status code. -/
theorem c1_exactly_one_sample_each (req : Request) (sc elapsed : Nat) :
    (middlewareTrace req elapsed [ResEvent.finish sc]).countP isCounterInc = 1 ∧
    (middlewareTrace req elapsed [ResEvent.finish sc]).countP isHistObserve = 1 ∧
    Action.counterInc req.method req.path sc
      ∈ middlewareTrace req elapsed [ResEvent.finish sc] ∧
    Action.histObserve req.method req.path sc elapsed
      ∈ middlewareTrace req elapsed [ResEvent.finish sc] := by
  simp [middlewareTrace, middlewareStart, runFinishListener, finishListener,
    List.countP_cons, isCounterInc, isHistObserve]

/-- C2 counterexample: the source registers the completion callback with
`res.on` and keeps no completed flag, so delivering the `finish` event
twice performs the four completion actions twice — refuting "at most one
time in total". -/
theorem c2_counterexample :
    ¬ ((runFinishListener req0 5 [ResEvent.finish 200, ResEvent.finish 200]).countP
          isCounterInc ≤ 1 ∧
       (runFinishListener req0 5 [ResEvent.finish 200, ResEvent.finish 200]).countP
          isSpanFinish ≤ 1) := by
  decide

/-- C2 amended: the completion callback runs once per delivery of the
`finish` event — n firings produce exactly n counter increments, n
histogram observations, n span tags and n span finishes.  At-most-once
therefore holds exactly when the event fires at most once; the middleware
itself has no guard against a second firing. -/
theorem c2_actions_once_per_firing (req : Request) (elapsed : Nat)
    (events : List ResEvent) :
    (runFinishListener req elapsed events).countP isCounterInc
        = countFinishEvents events ∧
    (runFinishListener req elapsed events).countP isHistObserve
        = countFinishEvents events ∧
    (runFinishListener req elapsed events).countP isSpanSetTag
        = countFinishEvents events ∧
    (runFinishListener req elapsed events).countP isSpanFinish
        = countFinishEvents events :=
  ⟨runFL_counterInc req elapsed events, runFL_histObserve req elapsed events,
   runFL_spanSetTag req elapsed events, runFL_spanFinish req elapsed events⟩

/-- C3 counterexample: when the client aborts before completion the
response emits only `close` and never `finish`; the middleware registers
no `close` listener, so the span it started is never finished — it leaks,
refuting "finished exactly once on every exit path". -/
theorem c3_counterexample :
    (middlewareTrace req0 5 [ResEvent.close]).countP isSpanStart = 1 ∧
    (middlewareTrace req0 5 [ResEvent.close]).countP isSpanFinish = 0 := by
  decide

/-- C3 amended: the middleware starts exactly one span and finishes it
exactly as many times as the `finish` event fires: exactly once on normal
completion, but zero times on a client abort before completion (`close`
without `finish`), where the span is leaked. -/
theorem c3_span_finishes_eq_finish_events (req : Request) (elapsed : Nat)
    (events : List ResEvent) :
    (middlewareTrace req elapsed events).countP isSpanStart = 1 ∧
    (middlewareTrace req elapsed events).countP isSpanFinish
        = countFinishEvents events := by
  have h2 := middlewareStart_counts req
  constructor
  · rw [middlewareTrace, List.countP_append, h2.2.2.2.2,
      runFL_spanStart req elapsed events]
  · rw [middlewareTrace, List.countP_append, h2.2.2.2.1,
      runFL_spanFinish req elapsed events]
    omega

/-- C5: for every normally-completed request the four completion actions
appear at the very end of the request's telemetry trace as the contiguous
block counter increment, then histogram observation, then span status tag,
then span finish — in that fixed program order — and none of the four
kinds of action occurs anywhere earlier in the trace. -/
theorem c5_completion_order (reg : Registry) (req : Request) (elapsed : Nat) :
    ∃ p, (appTrace reg req elapsed).2 =
        p ++ [Action.counterInc req.method req.path (appTrace reg req elapsed).1.status,
              Action.histObserve req.method req.path (appTrace reg req elapsed).1.status elapsed,
              Action.spanSetTag HTTP_STATUS_CODE (appTrace reg req elapsed).1.status,
              Action.spanFinish] ∧
      p.countP isCounterInc = 0 ∧ p.countP isHistObserve = 0 ∧
      p.countP isSpanSetTag = 0 ∧ p.countP isSpanFinish = 0 := by
  refine ⟨middlewareStart req ++ (routeResponse reg req).2, ?_, ?_, ?_, ?_, ?_⟩
  · simp [appTrace, runFinishListener, finishListener]
  all_goals
    have h2 := middlewareStart_counts req
    rcases routeResponse_actions reg req with h | h <;>
      simp [List.countP_append, h, List.countP_cons, isCounterInc,
        isHistObserve, isSpanSetTag, isSpanFinish, h2.1, h2.2.1, h2.2.2.1,
        h2.2.2.2.1]

/-- C4 counterexample: with a tracer whose `extract` throws, the middleware
lets the exception escape (its result carries the thrown error), performs
nothing and logs no error-level message; likewise a throwing counter
increment escapes the completion callback unlogged — refuting "caught and
logged, never propagated". -/
theorem c4_counterexample :
    (middlewareStartE downTracerSinks req0).2 = some "tracer unreachable" ∧
    (middlewareStartE downTracerSinks req0).1.countP isLogError = 0 ∧
    (finishListenerE downRegistrySinks req0 200 5).2
        = some "registry unreachable" ∧
    (finishListenerE downRegistrySinks req0 200 5).1.countP isLogError = 0 :=
  ⟨rfl, rfl, rfl, rfl⟩

/-- C4 amended: the middleware wraps no call in try/catch.  If the
tracer's `extract` throws, the exception escapes the middleware before
`next()`, with nothing performed and nothing logged by the middleware; if
the registry's counter increment throws inside the completion callback,
the exception escapes and the remaining completion actions are skipped,
again with nothing logged by the middleware.  (Only the jaeger reporter's
own internal failures are logged, by the logger injected at tracer
construction, src/app.js lines 62–71.) -/
theorem c4_exceptions_propagate (s : Sinks) (req : Request) (e : String)
    (sc elapsed : Nat) :
    (s.extractE req.headers = .error e →
      middlewareStartE s req = ([], some e)) ∧
    (s.counterIncE ⟨req.method, req.path, sc⟩ = .error e →
      finishListenerE s req sc elapsed = ([], some e)) := by
  constructor <;> intro h <;> simp [middlewareStartE, finishListenerE, h]

/-- Witness for the amended C4 theorem at concrete throwing
collaborators. -/
theorem c4_exceptions_propagate_witness :
    middlewareStartE downTracerSinks req0 = ([], some "tracer unreachable") ∧
    finishListenerE downRegistrySinks req0 200 5
        = ([], some "registry unreachable") :=
  ⟨(c4_exceptions_propagate downTracerSinks req0 "tracer unreachable" 200 5).1 rfl,
   (c4_exceptions_propagate downRegistrySinks req0 "registry unreachable" 200 5).2 rfl⟩

/-- C6: when the inbound headers carry no valid trace context, extraction
yields "no parent" without throwing, the middleware's start path completes
with no exception, and the span it starts is a root span (no parent). -/
theorem c6_root_span_without_context (req : Request)
    (h : tracerExtract req.headers = none) :
    middlewareStartE okSinks req
      = ([Action.spanStart req.path none serverTags], none) := by
  simp [middlewareStartE, okSinks, h]

/-- Witness for C6 at a concrete request with no trace headers. -/
theorem c6_root_span_without_context_witness :
    middlewareStartE okSinks req0
      = ([Action.spanStart "/" none serverTags], none) :=
  c6_root_span_without_context req0 rfl

/-- C7: the span opened for a request is named after the request path,
carries the server span-kind tag, its parent is exactly the extracted
context (a child when a context is present, a root span when not), and the
status-code tag in force when the span is finished equals the response's
final status code. -/
theorem c7_span_attributes (req : Request) (sc elapsed : Nat) :
    firstSpanStart (middlewareTrace req elapsed [ResEvent.finish sc])
        = some (req.path, tracerExtract req.headers, serverTags) ∧
    lastStatusTag (middlewareTrace req elapsed [ResEvent.finish sc])
        = some sc := by
  constructor
  · rfl
  · simp [middlewareTrace, middlewareStart, runFinishListener,
      finishListener, lastStatusTag]

/-- C8: every GET request to path "/" logs the informational message, is
answered 200 with the fixed plaintext body "Hello World!", and raises the
counter series (method = GET, route = /, status_code = 200) by exactly 1. -/
theorem c8_hello_endpoint (reg : Registry) (headers : List (String × String))
    (elapsed : Nat) :
    (handleRequest reg ⟨"GET", "/", headers⟩ elapsed).1.status = 200 ∧
    (handleRequest reg ⟨"GET", "/", headers⟩ elapsed).1.body = helloBody ∧
    Action.logInfo helloLogMsg
      ∈ (handleRequest reg ⟨"GET", "/", headers⟩ elapsed).2.1 ∧
    counterValue ⟨"GET", "/", 200⟩
        (handleRequest reg ⟨"GET", "/", headers⟩ elapsed).2.2.counter
      = counterValue ⟨"GET", "/", 200⟩ reg.counter + 1 := by
  refine ⟨rfl, rfl, ?_, ?_⟩
  · simp [handleRequest, appTrace, routeResponse, middlewareStart,
      runFinishListener, finishListener]
  · have hc : (handleRequest reg ⟨"GET", "/", headers⟩ elapsed).2.2.counter
        = bump ⟨"GET", "/", 200⟩ reg.counter := rfl
    rw [hc, counterValue_bump]

/-- C9 counterexample: against a fresh registry (no request completed yet)
`GET /metrics` answers 200, but the body holds only `# HELP` / `# TYPE`
header lines — no line begins with `http_requests_total`, because a
labelled counter renders no sample line until it has been incremented.
The claim as stated (every `GET /metrics` response body contains such a
line) is therefore false. -/
theorem c9_counterexample :
    (handleRequest Registry.empty ⟨"GET", "/metrics", []⟩ 0).1.status = 200 ∧
    hasLineBeginningWith "http_requests_total"
      (handleRequest Registry.empty ⟨"GET", "/metrics", []⟩ 0).1.body
        = false := by
  decide

/-- C9 amended: every GET request to `/metrics` is answered 200 with
Content-Type equal to the registry's declared content type and the
rendered exposition text as body; and whenever at least one request has
completed before the scrape (the counter has at least one recorded
series), the body contains a line beginning with `http_requests_total`. -/
theorem c9_metrics_endpoint (reg : Registry) (headers : List (String × String))
    (elapsed : Nat) (h : reg.counter ≠ []) :
    (handleRequest reg ⟨"GET", "/metrics", headers⟩ elapsed).1.status = 200 ∧
    (handleRequest reg ⟨"GET", "/metrics", headers⟩ elapsed).1.contentType
        = some registryContentType ∧
    hasLineBeginningWith "http_requests_total"
      (handleRequest reg ⟨"GET", "/metrics", headers⟩ elapsed).1.body
        = true := by
  refine ⟨rfl, rfl, ?_⟩
  obtain ⟨kv, rest, hc⟩ : ∃ kv rest, reg.counter = kv :: rest := by
    cases hcc : reg.counter with
    | nil => exact absurd hcc h
    | cons a b => exact ⟨a, b, rfl⟩
  have hbody : (handleRequest reg ⟨"GET", "/metrics", headers⟩ elapsed).1.body
      = joinLines (renderLines reg) := rfl
  rw [hbody, hasLineBeginningWith]
  apply scanLines_joinLines "http_requests_total".data (renderLines reg)
    ("http_requests_total" ++ renderCounterLabels kv.1 ++ " " ++ toString kv.2)
  · rw [renderLines]
    apply List.mem_append_left
    rw [hc, renderCounterLines]
    exact List.mem_cons_of_mem _ (List.mem_cons_of_mem _
      (List.mem_map_of_mem _ (List.mem_cons_self kv rest)))
  · have hd : ("http_requests_total" ++ renderCounterLabels kv.1 ++ " " ++
        toString kv.2).data
        = "http_requests_total".data ++ ((renderCounterLabels kv.1).data ++
            (" ".data ++ (toString kv.2).data)) := by
      simp [string_data_append]
    rw [hd]
    exact listBeginsWith_self_append _ _

/-- Witness for the amended C9 theorem: after one completed `GET /` the
scrape does contain an `http_requests_total` sample line. -/
theorem c9_metrics_endpoint_witness :
    (handleRequest regAfterHello ⟨"GET", "/metrics", []⟩ 0).1.status = 200 ∧
    (handleRequest regAfterHello ⟨"GET", "/metrics", []⟩ 0).1.contentType
        = some registryContentType ∧
    hasLineBeginningWith "http_requests_total"
      (handleRequest regAfterHello ⟨"GET", "/metrics", []⟩ 0).1.body
        = true :=
  c9_metrics_endpoint regAfterHello [] 0 (by decide)

/-- C10: the instrumentation middleware runs for every inbound request,
matched route or not: a request whose method/path matches no route is
answered 404 by the framework's final handler and still produces exactly
one counter sample, one histogram sample and one span, the samples
labelled and the span named with the raw request path (not a normalized
route pattern) — so the route label ranges over arbitrary raw paths. -/
theorem c10_unmatched_route_instrumented (reg : Registry) (req : Request)
    (elapsed : Nat)
    (h1 : ¬(req.method = "GET" ∧ req.path = "/"))
    (h2 : ¬(req.method = "GET" ∧ req.path = "/metrics")) :
    (handleRequest reg req elapsed).1.status = 404 ∧
    (handleRequest reg req elapsed).2.1.countP isCounterInc = 1 ∧
    (handleRequest reg req elapsed).2.1.countP isHistObserve = 1 ∧
    (handleRequest reg req elapsed).2.1.countP isSpanStart = 1 ∧
    Action.counterInc req.method req.path 404
      ∈ (handleRequest reg req elapsed).2.1 ∧
    Action.histObserve req.method req.path 404 elapsed
      ∈ (handleRequest reg req elapsed).2.1 ∧
    firstSpanStart (handleRequest reg req elapsed).2.1
      = some (req.path, tracerExtract req.headers, serverTags) := by
  have hroute : routeResponse reg req
      = (⟨404, none, "Cannot " ++ req.method ++ " " ++ req.path⟩, []) := by
    rw [routeResponse, if_neg h1, if_neg h2]
  have htr : (handleRequest reg req elapsed).2.1
      = middlewareStart req ++
          runFinishListener req elapsed [ResEvent.finish 404] := by
    simp [handleRequest, appTrace, hroute]
  have hst : (handleRequest reg req elapsed).1.status = 404 := by
    simp [handleRequest, appTrace, hroute]
  refine ⟨hst, ?_, ?_, ?_, ?_, ?_, ?_⟩ <;> rw [htr] <;>
    simp [middlewareStart, runFinishListener, finishListener,
      List.countP_cons, isCounterInc, isHistObserve, isSpanStart,
      firstSpanStart]

/-- Witness for C10 at a concrete unregistered path. -/
theorem c10_unmatched_route_instrumented_witness :
    (handleRequest Registry.empty ⟨"POST", "/nope", []⟩ 7).1.status = 404 ∧
    (handleRequest Registry.empty ⟨"POST", "/nope", []⟩ 7).2.1.countP
        isCounterInc = 1 ∧
    (handleRequest Registry.empty ⟨"POST", "/nope", []⟩ 7).2.1.countP
        isHistObserve = 1 ∧
    (handleRequest Registry.empty ⟨"POST", "/nope", []⟩ 7).2.1.countP
        isSpanStart = 1 ∧
    Action.counterInc "POST" "/nope" 404
      ∈ (handleRequest Registry.empty ⟨"POST", "/nope", []⟩ 7).2.1 ∧
    Action.histObserve "POST" "/nope" 404 7
      ∈ (handleRequest Registry.empty ⟨"POST", "/nope", []⟩ 7).2.1 ∧
    firstSpanStart (handleRequest Registry.empty ⟨"POST", "/nope", []⟩ 7).2.1
      = some ("/nope", none, serverTags) :=
  c10_unmatched_route_instrumented Registry.empty ⟨"POST", "/nope", []⟩ 7
    (by decide) (by decide)

end App
